import Mathlib

/-!
Verification of the observability instrumentation core of the customer
service agent (reference solution `solution.py`): structured JSON logging,
Prometheus-style metric events, the four registered tool handlers, and the
health / metrics-info endpoints. Handlers are embedded as pure functions
producing a trace of log records and metric events together with an
`Except`-typed result, where `Except.error` models an uncaught Python
exception propagating to the dispatcher.
-/

namespace Solution

/-- Value appearing in a log record's context or serialized output.
`nonSerializable` stands for a Python object `json.dumps` cannot encode. -/
inductive JVal where
  | str (s : String) : JVal
  | num (q : ℚ) : JVal
  | null : JVal
  | nonSerializable : JVal
  deriving DecidableEq

/-- Whether `json.dumps` can encode this value. -/
def JVal.serializable : JVal → Bool
  | .nonSerializable => false
  | _ => true

/-- Model of `json.dumps` at the JSON-object level: succeeds with the given
association list when every value is serializable, otherwise raises
(`Except.error`, modelling Python's `TypeError`). -/
def jsonDumps (l : List (String × JVal)) : Except Unit (List (String × JVal)) :=
  if l.all (fun p => p.2.serializable) then Except.ok l else Except.error ()

/-- A Python `logging.LogRecord` as seen by the formatter: level name, logger
name, rendered message, provenance (`module`, `funcName`), the extra
attributes set through `extra=` (as an association list), and `exc_info`
(modelled as the already-formatted traceback text when present). -/
structure LogRecord where
  levelname : String
  name : String
  msg : String
  module : String
  funcName : String
  context : List (String × JVal)
  exc_info : Option String
  deriving DecidableEq

/-- The allow-list of extra fields merged by `JSONFormatter.format`
(solution.py lines 41-45). -/
def extra_fields : List String :=
  ["call_id", "customer_id", "function_name", "duration_ms", "error_type",
   "ticket_id", "priority", "department"]

/-- The six fixed base fields always present in the serialized record. -/
def base_fields : List String :=
  ["timestamp", "level", "logger", "message", "module", "function"]

/-- The base portion of `log_data` built by `JSONFormatter.format`
(solution.py lines 31-38); `now` is the UTC timestamp string. -/
def base_data (now : String) (record : LogRecord) : List (String × JVal) :=
  [("timestamp", JVal.str now), ("level", JVal.str record.levelname),
   ("logger", JVal.str record.name), ("message", JVal.str record.msg),
   ("module", JVal.str record.module), ("function", JVal.str record.funcName)]

/-- The `log_data` object assembled by `JSONFormatter.format` before
serialization: the base fields, the allow-listed extras present on the
record, and the formatted exception when `exc_info` is set. -/
def format_log_data (now : String) (record : LogRecord) : List (String × JVal) :=
  base_data now record
    ++ extra_fields.filterMap (fun k => (record.context.lookup k).map (fun v => (k, v)))
    ++ (match record.exc_info with
        | some tb => [("exception", JVal.str tb)]
        | none => [])

/-- Embedding of `JSONFormatter.format` (solution.py lines 30-53): builds
`log_data` and serializes it with `json.dumps`. There is no try/except
around the serialization in the source. -/
def JSONFormatter.format (now : String) (record : LogRecord) :
    Except Unit (List (String × JVal)) :=
  jsonDumps (format_log_data now record)

/-- One observable action on the Prometheus metric state: a counter
increment or a histogram observation, with the metric name and labels. -/
inductive MetricEvent where
  | inc (metric : String) (labels : List (String × String)) : MetricEvent
  | observe (metric : String) (labels : List (String × String)) (value : ℚ) : MetricEvent
  deriving DecidableEq

/-- Whether the event is an increment of the given metric carrying at least
the given labels. -/
def MetricEvent.isIncOf : MetricEvent → String → List (String × String) → Bool
  | .inc m ls, metric, labels => m == metric && labels.all (fun p => ls.contains p)
  | _, _, _ => false

/-- Number of increments of the given metric carrying the given labels. -/
def countIncOf (events : List MetricEvent) (metric : String)
    (labels : List (String × String)) : ℕ :=
  (events.filter (fun e => e.isIncOf metric labels)).length

/-- Values observed into the given histogram, in emission order. -/
def observedValues (events : List MetricEvent) (metric : String) : List ℚ :=
  events.filterMap (fun e => match e with
    | .observe m _ v => if m == metric then some v else none
    | _ => none)

/-- Whether the record's extra context carries the given key. -/
def hasContextKey (r : LogRecord) (k : String) : Bool :=
  (r.context.lookup k).isSome

/-- Whether the record is the per-call instrumentation INFO record: level
INFO carrying all of call_id, function_name and duration_ms. -/
def isInstrumentationInfo (r : LogRecord) : Bool :=
  r.levelname == "INFO" && hasContextKey r "call_id" &&
    hasContextKey r "function_name" && hasContextKey r "duration_ms"

/-- Number of instrumentation INFO records in a log trace. -/
def instrInfoCount (logs : List LogRecord) : ℕ :=
  (logs.filter isInstrumentationInfo).length

/-- Python's round-half-to-even on rationals (the rounding used by the
built-in `round`). -/
def pyRound (x : ℚ) : ℤ :=
  if x - ⌊x⌋ < 1/2 then ⌊x⌋
  else if (1 : ℚ)/2 < x - ⌊x⌋ then ⌊x⌋ + 1
  else if ⌊x⌋ % 2 = 0 then ⌊x⌋ else ⌊x⌋ + 1

/-- Python's `round(x, 2)`: round half to even at two decimal places. -/
def pyRound2 (x : ℚ) : ℚ := (pyRound (x * 100) : ℚ) / 100

/-- Rendering of an optional string the way a Python f-string renders it
(`None` for the absent case). -/
def pyStr : Option String → String
  | some s => s
  | none => "None"

/-- The JSON value stored for `error_type` in the ERROR record: the error
text, or JSON null when the error argument was left at its `None` default. -/
def jvalOfOptStr : Option String → JVal
  | some s => JVal.str s
  | none => JVal.null

/-- Python's `error or "unknown"` applied to an optional error string: an
absent or empty string falls back to "unknown". -/
def orUnknown : Option String → String
  | some s => if s = "" then "unknown" else s
  | none => "unknown"

/-- The constant agent name used as the `agent` metric label. -/
def agent_name : String := "observable-agent"

/-- Build a record as emitted by `self.logger.info` / `self.logger.error`
with `extra=` context: logger "agent", module "solution", no exception
info. `funcName` is the emitting Python function. -/
def mkRecord (level message funcName : String) (context : List (String × JVal)) :
    LogRecord :=
  ⟨level, "agent", message, "solution", funcName, context, none⟩

/-- Embedding of `ObservableAgent._log_function_call` (solution.py lines
156-197): emits one INFO or ERROR record with call_id, function_name and the
duration rounded to 2 decimals (plus error_type on failure), and, when the
Prometheus backend is available, one `function_calls_total` increment labelled
by status, one `function_latency_seconds` observation of the duration divided
by 1000, and on failure one `errors_total` increment. -/
def _log_function_call (prometheus_available : Bool) (func_name call_id : String)
    (duration_ms : ℚ) (success : Bool) (error : Option String) :
    List LogRecord × List MetricEvent :=
  let extra : List (String × JVal) :=
    [("call_id", JVal.str call_id), ("function_name", JVal.str func_name),
     ("duration_ms", JVal.num (pyRound2 duration_ms))]
  let logs :=
    if success then
      [mkRecord "INFO" ("Function " ++ func_name ++ " completed")
        "_log_function_call" extra]
    else
      [mkRecord "ERROR" ("Function " ++ func_name ++ " failed: " ++ pyStr error)
        "_log_function_call" (extra ++ [("error_type", jvalOfOptStr error)])]
  let events :=
    if prometheus_available then
      [MetricEvent.inc "voice_agent_function_calls_total"
        [("agent", agent_name), ("function", func_name),
         ("status", if success then "success" else "error")],
       MetricEvent.observe "voice_agent_function_latency_seconds"
        [("agent", agent_name), ("function", func_name)] (duration_ms / 1000)]
      ++ (if success then [] else
        [MetricEvent.inc "voice_agent_errors_total"
          [("agent", agent_name), ("function", func_name),
           ("error_type", orUnknown error)]])
    else []
  (logs, events)

/-- The result object handed back to the orchestrator: response text,
post-process flag, `update_global_data` payload, and `swml_transfer`
directive (destination, final message, final flag) when set. -/
structure SwaigFunctionResult where
  response : String
  post_process : Bool
  global_data : List (String × String)
  transfer : Option (String × String × Bool)
  deriving DecidableEq

/-- The `SwaigFunctionResult(text)` / `SwaigFunctionResult(text,
post_process=...)` constructor: no global data, no transfer directive. -/
def SwaigFunctionResult.new (response : String) (post : Bool) :
    SwaigFunctionResult :=
  ⟨response, post, [], none⟩

/-- The `.update_global_data(dict)` builder method. -/
def SwaigFunctionResult.update_global_data (r : SwaigFunctionResult)
    (d : List (String × String)) : SwaigFunctionResult :=
  { r with global_data := d }

/-- The `.swml_transfer(dest, message, final=...)` builder method. -/
def SwaigFunctionResult.swml_transfer (r : SwaigFunctionResult)
    (dest message : String) (final : Bool) : SwaigFunctionResult :=
  { r with transfer := some (dest, message, final) }

/-- Observable outcome of one tool handler invocation: the log records it
emitted, the metric events it emitted, and its result — `Except.ok` a
well-formed response, or `Except.error` an uncaught Python exception
propagating to the dispatcher. -/
structure HandlerOutcome where
  logs : List LogRecord
  metrics : List MetricEvent
  result : Except String SwaigFunctionResult

/-- Whether the handler returned a well-formed response (no uncaught
exception reached the dispatcher). -/
def HandlerOutcome.isOk (o : HandlerOutcome) : Bool :=
  match o.result with
  | Except.ok _ => true
  | Except.error _ => false

/-- The fixed fallback apology returned by `get_order_status` on failure. -/
def fallback_order_message : String :=
  "I\x27m having trouble looking up that order. Can I help with something else?"

/-- Embedding of the `get_order_status` tool (solution.py lines 213-244).
The simulated order lookup inside the try block (`time.sleep(0.2)`;
`status = "shipped"`) is represented by the `lookup` argument: in the
unmodified source it is `Except.ok "shipped"`, and `Except.error e` models a
fault raised by that business logic (the fault simulation of spec Scenario
D). The source wraps the whole body in try/except, so a fault is logged as
ERROR, counted, and converted to the fallback response; `duration_ms` is the
elapsed time measured by `time.perf_counter`. -/
def get_order_status (prometheus_available : Bool) (order_id : String)
    (raw_data : List (String × String)) (lookup : Except String String)
    (duration_ms : ℚ) : HandlerOutcome :=
  let call_id := (raw_data.lookup "call_id").getD "unknown"
  match lookup with
  | Except.ok status =>
    let lm := _log_function_call prometheus_available "get_order_status" call_id
      duration_ms true none
    ⟨lm.1, lm.2,
     Except.ok (SwaigFunctionResult.new ("Order " ++ order_id ++ ": " ++ status) false)⟩
  | Except.error e =>
    let lm := _log_function_call prometheus_available "get_order_status" call_id
      duration_ms false (some e)
    ⟨lm.1, lm.2, Except.ok (SwaigFunctionResult.new fallback_order_message false)⟩

/-- A wall-clock instant as used by `datetime.now()` for ticket ids. -/
structure Datetime where
  year : ℕ
  month : ℕ
  day : ℕ
  hour : ℕ
  minute : ℕ
  second : ℕ
  deriving DecidableEq

/-- Range of instants on which the fixed-width `strftime` embedding is
faithful: a four-digit year and in-range calendar/clock fields. -/
def Datetime.Valid (t : Datetime) : Prop :=
  1000 ≤ t.year ∧ t.year ≤ 9999 ∧ 1 ≤ t.month ∧ t.month ≤ 12 ∧
    1 ≤ t.day ∧ t.day ≤ 31 ∧ t.hour ≤ 23 ∧ t.minute ≤ 59 ∧ t.second ≤ 59

instance (t : Datetime) : Decidable t.Valid := by
  unfold Datetime.Valid
  infer_instance

/-- Two-digit zero-padded decimal rendering (strftime codes %m %d %H %M %S). -/
def pad2 (n : ℕ) : List Char :=
  [Nat.digitChar (n / 10 % 10), Nat.digitChar (n % 10)]

/-- Four-digit zero-padded decimal rendering (strftime code %Y). -/
def pad4 (n : ℕ) : List Char :=
  [Nat.digitChar (n / 1000 % 10), Nat.digitChar (n / 100 % 10),
   Nat.digitChar (n / 10 % 10), Nat.digitChar (n % 10)]

/-- Embedding of `datetime.now().strftime("%Y%m%d%H%M%S")`. -/
def strftimeYmdHMS (t : Datetime) : String :=
  String.mk (pad4 t.year ++ pad2 t.month ++ pad2 t.day ++ pad2 t.hour ++
    pad2 t.minute ++ pad2 t.second)

/-- The ticket identifier built by `create_ticket` (solution.py line 268). -/
def ticket_id (now : Datetime) : String := "TKT-" ++ strftimeYmdHMS now

/-- Embedding of the `create_ticket` tool (solution.py lines 260-301).
`priority = none` models the caller omitting the argument, defaulted to
"medium" by the Python parameter default; `raw_data = none` models the call
context being absent (`raw_data: dict = None`). The source body has no
try/except: a fault raised by its business logic (represented by the `biz`
argument, `Except.ok ()` in the unmodified source) propagates uncaught to
the dispatcher, with no log record or metric event emitted by this handler.
On the normal path it emits the instrumentation record and metrics via
`_log_function_call`, one business INFO record "Ticket created", and one
`tickets_total` increment labelled by priority. -/
def create_ticket (prometheus_available : Bool) (issue : String)
    (priority : Option String) (raw_data : Option (List (String × String)))
    (now : Datetime) (duration_ms : ℚ) (biz : Except String Unit) :
    HandlerOutcome :=
  match biz with
  | Except.error e => ⟨[], [], Except.error e⟩
  | Except.ok _ =>
    let priority := priority.getD "medium"
    let call_id := match raw_data with
      | some rd => (rd.lookup "call_id").getD "unknown"
      | none => "unknown"
    let tid := ticket_id now
    let lm := _log_function_call prometheus_available "create_ticket" call_id
      duration_ms true none
    let bizLog := mkRecord "INFO" "Ticket created" "create_ticket"
      [("call_id", JVal.str call_id), ("ticket_id", JVal.str tid),
       ("priority", JVal.str priority)]
    let bizEvents := if prometheus_available then
        [MetricEvent.inc "voice_agent_tickets_total"
          [("agent", agent_name), ("priority", priority)]]
      else []
    ⟨lm.1 ++ [bizLog], lm.2 ++ bizEvents,
     Except.ok ((SwaigFunctionResult.new ("Created ticket " ++ tid ++ ".") false).update_global_data
       [("ticket_id", tid), ("ticket_priority", priority)])⟩

/-- Embedding of the `transfer_specialist` tool (solution.py lines 316-340).
The source emits only the business INFO record "Transfer initiated" (with
call_id and department) and one `transfers_total` increment; it never calls
`_log_function_call`, so no instrumentation record, `function_calls_total`
increment or latency observation is produced. -/
def transfer_specialist (prometheus_available : Bool) (department : String)
    (raw_data : List (String × String)) : HandlerOutcome :=
  let call_id := (raw_data.lookup "call_id").getD "unknown"
  let bizLog := mkRecord "INFO" "Transfer initiated" "transfer_specialist"
    [("call_id", JVal.str call_id), ("department", JVal.str department)]
  let events := if prometheus_available then
      [MetricEvent.inc "voice_agent_transfers_total"
        [("agent", agent_name), ("department", department)]]
    else []
  ⟨[bizLog], events,
   Except.ok ((SwaigFunctionResult.new ("Transferring to " ++ department ++ ".") true).swml_transfer
     ("/agents/" ++ department) "Goodbye!" true)⟩

/-- Embedding of the `system_status` tool (solution.py lines 342-344): it
emits no log record and no metric event at all. -/
def system_status : HandlerOutcome :=
  ⟨[], [], Except.ok (SwaigFunctionResult.new "All systems operational." false)⟩

/-- An environment-variable mapping as read by `os.getenv`. -/
def Env : Type := String → Option String

/-- Embedding of `os.getenv(name, default)`. -/
def getenv (env : Env) (name default : String) : String :=
  (env name).getD default

/-- Accumulating decimal parse of a character list, failing on the first
non-digit character. -/
def parseNatDigits : List Char → ℕ → Option ℕ
  | [], acc => some acc
  | c :: cs, acc =>
    if c.isDigit then parseNatDigits cs (acc * 10 + (c.toNat - 48)) else none

/-- Embedding of Python's `int()` on a nonnegative decimal string (the only
use here is parsing port numbers), failing on non-numeric input. -/
def pyInt (s : String) : Option ℕ :=
  match s.data with
  | [] => none
  | l => parseNatDigits l 0

/-- The network configuration computed at the top of `create_server`
(solution.py lines 353-355). -/
structure ServerConfig where
  host : String
  port : Option ℕ
  metrics_port : Option ℕ
  deriving DecidableEq

/-- Embedding of the configuration lines of `create_server`: HOST, PORT and
METRICS_PORT with their defaults. -/
def create_server (env : Env) : ServerConfig :=
  ⟨getenv env "HOST" "0.0.0.0", pyInt (getenv env "PORT" "3000"),
   pyInt (getenv env "METRICS_PORT" "9090")⟩

/-- The `GET /health` response body. -/
structure HealthResponse where
  status : String
  timestamp : String
  version : String
  deriving DecidableEq

/-- Embedding of the `/health` endpoint (solution.py lines 370-376). -/
def health (env : Env) (now : String) : HealthResponse :=
  ⟨"healthy", now, getenv env "APP_VERSION" "1.0.0"⟩

/-- One named probe result in the detailed health response. -/
structure Check where
  status : String
  error : Option String
  deriving DecidableEq

/-- The `GET /health/detailed` response body. -/
structure DetailedHealth where
  status : String
  timestamp : String
  checks : List (String × Check)
  deriving DecidableEq

/-- Embedding of the `/health/detailed` endpoint (solution.py lines
384-408): the agent probe, the metrics probe ("unavailable" when the
Prometheus backend is absent), and the SWML-generation probe, whose fault
(`swml = Except.error e`, modelling `agent.get_swml()` raising) is recorded
as an "unhealthy" entry; the overall status is "healthy" iff every probe
whose status is not "unavailable" has status "healthy". -/
def health_detailed (prometheus_available : Bool) (now : String)
    (swml : Except String Unit) : DetailedHealth :=
  let checks : List (String × Check) :=
    [("agent", ⟨"healthy", none⟩),
     ("metrics", ⟨if prometheus_available then "healthy" else "unavailable", none⟩),
     ("swml_generation",
       match swml with
       | Except.ok _ => ⟨"healthy", none⟩
       | Except.error e => ⟨"unhealthy", some e⟩)]
  let all_healthy := checks.all (fun c =>
    if c.2.status == "unavailable" then true else c.2.status == "healthy")
  ⟨if all_healthy then "healthy" else "degraded", now, checks⟩

/-- The `GET /metrics/info` response body. -/
structure MetricsInfo where
  metrics_available : Bool
  metrics_port : Option ℕ
  available_metrics : List String
  deriving DecidableEq

/-- The metric names advertised by `/metrics/info` when the backend is
available (solution.py lines 416-423). -/
def available_metric_names : List String :=
  ["voice_agent_calls_total", "voice_agent_function_calls_total",
   "voice_agent_function_latency_seconds", "voice_agent_tickets_total",
   "voice_agent_transfers_total", "voice_agent_errors_total"]

/-- Embedding of the `/metrics/info` endpoint (solution.py lines 411-424). -/
def metrics_info (prometheus_available : Bool) (metrics_port : ℕ) : MetricsInfo :=
  ⟨prometheus_available,
   if prometheus_available then some metrics_port else none,
   if prometheus_available then available_metric_names else []⟩

/-! Helper lemmas shared by the claim theorems. -/

/-- Round-half-to-even lands within one half of its argument. -/
theorem abs_pyRound_sub (x : ℚ) : |(pyRound x : ℚ) - x| ≤ 1/2 := by
  have h0 : (⌊x⌋ : ℚ) ≤ x := Int.floor_le x
  have h1 : x < ⌊x⌋ + 1 := Int.lt_floor_add_one x
  rw [abs_le]
  unfold pyRound
  split_ifs with hc1 hc2 hc3
  · constructor <;> linarith
  · push_cast
    constructor <;> linarith
  · constructor <;> linarith
  · push_cast
    constructor <;> linarith

/-- Rounding to two decimal places moves a rational by at most 1/200. -/
theorem abs_pyRound2_sub (x : ℚ) : |pyRound2 x - x| ≤ 1/200 := by
  have h := abs_pyRound_sub (x * 100)
  unfold pyRound2
  have hrw : (pyRound (x * 100) : ℚ) / 100 - x =
      ((pyRound (x * 100) : ℚ) - x * 100) / 100 := by ring
  rw [hrw, abs_div, abs_of_pos (by norm_num : (0 : ℚ) < 100)]
  linarith

/-- The decimal digit characters produced by `Nat.digitChar` are digits. -/
theorem digitChar_isDigit (n : ℕ) (h : n < 10) : (Nat.digitChar n).isDigit = true := by
  interval_cases n <;> decide

/-- Every character of a two-digit zero-padded rendering is a digit. -/
theorem mem_pad2_isDigit (n : ℕ) (c : Char) (hc : c ∈ pad2 n) : c.isDigit = true := by
  simp only [pad2, List.mem_cons, List.not_mem_nil, or_false] at hc
  rcases hc with h | h <;> subst h <;>
    exact digitChar_isDigit _ (Nat.mod_lt _ (by norm_num))

/-- Every character of a four-digit zero-padded rendering is a digit. -/
theorem mem_pad4_isDigit (n : ℕ) (c : Char) (hc : c ∈ pad4 n) : c.isDigit = true := by
  simp only [pad4, List.mem_cons, List.not_mem_nil, or_false] at hc
  rcases hc with h | h | h | h <;> subst h <;>
    exact digitChar_isDigit _ (Nat.mod_lt _ (by norm_num))

/-- Serialization raises when some value is non-serializable. -/
theorem jsonDumps_eq_error (l : List (String × JVal))
    (h : ∃ p ∈ l, p.2.serializable = false) : jsonDumps l = Except.error () := by
  obtain ⟨p, hp, hser⟩ := h
  unfold jsonDumps
  rw [if_neg]
  intro hall
  rw [List.all_eq_true] at hall
  have := hall p hp
  rw [hser] at this
  cases this

/-- Serialization succeeds, returning the object, when every value is
serializable. -/
theorem jsonDumps_eq_ok (l : List (String × JVal))
    (h : ∀ p ∈ l, p.2.serializable = true) : jsonDumps l = Except.ok l := by
  unfold jsonDumps
  rw [if_pos]
  rw [List.all_eq_true]
  exact h

/-- A successful serialization returns exactly the given object. -/
theorem jsonDumps_ok_inv (l out : List (String × JVal))
    (h : jsonDumps l = Except.ok out) : out = l := by
  unfold jsonDumps at h
  split at h
  · exact (Except.ok.inj h).symm
  · cases h

/-- Values other than the non-serializable marker are serializable. -/
theorem serializable_of_ne (v : JVal) (h : v ≠ JVal.nonSerializable) :
    v.serializable = true := by
  cases v <;> first | rfl | exact absurd rfl h

/-! Claim theorems. -/

/-- C3: the detailed-health endpoint folds probe statuses with the rule that
the overall status is "healthy" iff every probe whose status is not
"unavailable" has status "healthy" (and "degraded" otherwise); in
particular, when the metrics backend was never started and SWML generation
succeeds, the metrics probe reports "unavailable" and the overall status is
still "healthy". -/
theorem c3_detailed_health_fold (prometheus_available : Bool) (now : String)
    (swml : Except String Unit) :
    ((health_detailed prometheus_available now swml).status = "healthy" ↔
      ∀ c ∈ (health_detailed prometheus_available now swml).checks,
        c.2.status ≠ "unavailable" → c.2.status = "healthy") ∧
    (prometheus_available = false → swml = Except.ok () →
      (health_detailed prometheus_available now swml).checks.lookup "metrics"
          = some ⟨"unavailable", none⟩ ∧
        (health_detailed prometheus_available now swml).status = "healthy") := by
  cases prometheus_available <;> cases swml <;> simp [health_detailed] <;> decide

/-- C3 witness: with metrics never started and SWML generation succeeding,
the metrics probe is "unavailable" and the overall status is "healthy". -/
theorem c3_detailed_health_fold_witness :
    (health_detailed false "2026-10-12T00:00:00" (Except.ok ())).checks.lookup "metrics"
        = some ⟨"unavailable", none⟩ ∧
      (health_detailed false "2026-10-12T00:00:00" (Except.ok ())).status = "healthy" :=
  (c3_detailed_health_fold false "2026-10-12T00:00:00" (Except.ok ())).2 rfl rfl

/-- C6: when the Prometheus backend is unavailable, every handler invocation
and every `_log_function_call` emits no metric event at all (the
metrics-emitting operations are safe no-ops), and `/metrics/info` reports
metrics unavailable with a null port and an empty metric list. -/
theorem c6_metrics_unavailable_noop :
    (∀ (order_id : String) (raw : List (String × String))
        (lookup : Except String String) (d : ℚ),
      (get_order_status false order_id raw lookup d).metrics = []) ∧
    (∀ (issue : String) (priority : Option String)
        (raw : Option (List (String × String))) (now : Datetime) (d : ℚ)
        (biz : Except String Unit),
      (create_ticket false issue priority raw now d biz).metrics = []) ∧
    (∀ (department : String) (raw : List (String × String)),
      (transfer_specialist false department raw).metrics = []) ∧
    system_status.metrics = [] ∧
    (∀ (fn cid : String) (d : ℚ) (success : Bool) (error : Option String),
      (_log_function_call false fn cid d success error).2 = []) ∧
    (∀ mp : ℕ, metrics_info false mp = ⟨false, none, []⟩) := by
  refine ⟨?_, ?_, ?_, rfl, ?_, ?_⟩
  · intro oid raw lk d
    cases lk <;> simp [get_order_status, _log_function_call]
  · intro issue pr raw now d biz
    cases biz <;> simp [create_ticket, _log_function_call]
  · intro dept raw
    simp [transfer_specialist]
  · intro fn cid d s e
    simp [_log_function_call]
  · intro mp
    rfl

/-- C9: with HOST, PORT, METRICS_PORT and APP_VERSION unset, the server uses
exactly the defaults 0.0.0.0, 3000 and 9090, and `GET /health` returns
status "healthy" with version "1.0.0". -/
theorem c9_env_defaults (env : Env) (now : String)
    (hH : env "HOST" = none) (hP : env "PORT" = none)
    (hM : env "METRICS_PORT" = none) (hV : env "APP_VERSION" = none) :
    create_server env = ⟨"0.0.0.0", some 3000, some 9090⟩ ∧
      health env now = ⟨"healthy", now, "1.0.0"⟩ := by
  unfold create_server health getenv pyInt
  rw [hH, hP, hM, hV]
  exact ⟨by decide, rfl⟩

/-- C9 witness: the defaults at the concrete empty environment. -/
theorem c9_env_defaults_witness :
    create_server (fun _ => none) = ⟨"0.0.0.0", some 3000, some 9090⟩ ∧
      health (fun _ => none) "2026-10-12T00:00:00"
        = ⟨"healthy", "2026-10-12T00:00:00", "1.0.0"⟩ :=
  c9_env_defaults (fun _ => none) "2026-10-12T00:00:00" rfl rfl rfl rfl

/-- C7: invoking `create_ticket` with an issue and no priority argument
yields a ticket identifier of the form TKT- followed by exactly 14 digit
characters, defaults the priority to "medium" (visible in the returned
global-data patch), and records exactly one `tickets_total` increment, which
carries the priority label "medium". -/
theorem c7_create_ticket_default (issue : String)
    (raw : Option (List (String × String))) (now : Datetime) (d : ℚ)
    (hv : now.Valid) :
    (∃ ds : List Char, ticket_id now = "TKT-" ++ String.mk ds ∧
      ds.length = 14 ∧ ∀ c ∈ ds, c.isDigit = true) ∧
    countIncOf (create_ticket true issue none raw now d (Except.ok ())).metrics
        "voice_agent_tickets_total" [("agent", agent_name), ("priority", "medium")] = 1 ∧
    countIncOf (create_ticket true issue none raw now d (Except.ok ())).metrics
        "voice_agent_tickets_total" [] = 1 ∧
    (create_ticket true issue none raw now d (Except.ok ())).result
        = Except.ok ((SwaigFunctionResult.new ("Created ticket " ++ ticket_id now ++ ".")
            false).update_global_data
            [("ticket_id", ticket_id now), ("ticket_priority", "medium")]) := by
  refine ⟨⟨pad4 now.year ++ pad2 now.month ++ pad2 now.day ++ pad2 now.hour ++
    pad2 now.minute ++ pad2 now.second, rfl, ?_, ?_⟩, rfl, rfl, rfl⟩
  · simp [pad4, pad2]
  · intro c hc
    simp only [List.mem_append] at hc
    rcases hc with ((((h | h) | h) | h) | h) | h
    · exact mem_pad4_isDigit _ _ h
    · exact mem_pad2_isDigit _ _ h
    · exact mem_pad2_isDigit _ _ h
    · exact mem_pad2_isDigit _ _ h
    · exact mem_pad2_isDigit _ _ h
    · exact mem_pad2_isDigit _ _ h

/-- C7 witness: the concrete instant 2026-10-12 11:30:00 is in the valid
range, and the no-priority invocation records exactly one
tickets_total increment labelled medium. -/
theorem c7_create_ticket_default_witness :
    Datetime.Valid ⟨2026, 10, 12, 11, 30, 0⟩ ∧
      countIncOf (create_ticket true "broken widget" none none
          ⟨2026, 10, 12, 11, 30, 0⟩ 0 (Except.ok ())).metrics
        "voice_agent_tickets_total" [("agent", agent_name), ("priority", "medium")] = 1 :=
  ⟨by decide,
   (c7_create_ticket_default "broken widget" none ⟨2026, 10, 12, 11, 30, 0⟩ 0
     (by decide)).2.1⟩

/-- C8: for every instrumented call with elapsed duration d milliseconds,
the duration_ms value written to the log record equals d rounded (half to
even) to 2 decimal places, the histogram receives exactly the one
observation d / 1000, and the logged value is within 1/200 of 1000 times
the observed value. -/
theorem c8_duration_rounding (fn cid : String) (d : ℚ) (success : Bool)
    (error : Option String) :
    (∀ r ∈ (_log_function_call true fn cid d success error).1,
      r.context.lookup "duration_ms" = some (JVal.num (pyRound2 d))) ∧
    observedValues (_log_function_call true fn cid d success error).2
        "voice_agent_function_latency_seconds" = [d / 1000] ∧
    |pyRound2 d - 1000 * (d / 1000)| ≤ 1/200 := by
  refine ⟨?_, ?_, ?_⟩
  · intro r hr
    cases success <;> simp [_log_function_call, mkRecord] at hr <;> subst hr <;> rfl
  · cases success <;> rfl
  · have h : (1000 : ℚ) * (d / 1000) = d := by ring
    rw [h]
    exact abs_pyRound2_sub d

/-- C10: when the call context mapping lacks a call_id key, every log record
emitted by get_order_status, create_ticket and transfer_specialist carries
call_id "unknown" and the invocation completes without fault;
create_ticket additionally tolerates the call context being absent (None)
with the same fallback. -/
theorem c10_call_id_fallback (raw : List (String × String))
    (h : raw.lookup "call_id" = none) (order_id : String)
    (lookup : Except String String) (d : ℚ) (issue : String)
    (priority : Option String) (now : Datetime) (department : String) :
    ((∀ r ∈ (get_order_status true order_id raw lookup d).logs,
        r.context.lookup "call_id" = some (JVal.str "unknown")) ∧
      (get_order_status true order_id raw lookup d).isOk = true) ∧
    ((∀ r ∈ (create_ticket true issue priority (some raw) now d (Except.ok ())).logs,
        r.context.lookup "call_id" = some (JVal.str "unknown")) ∧
      (create_ticket true issue priority (some raw) now d (Except.ok ())).isOk = true) ∧
    ((∀ r ∈ (create_ticket true issue priority none now d (Except.ok ())).logs,
        r.context.lookup "call_id" = some (JVal.str "unknown")) ∧
      (create_ticket true issue priority none now d (Except.ok ())).isOk = true) ∧
    ((∀ r ∈ (transfer_specialist true department raw).logs,
        r.context.lookup "call_id" = some (JVal.str "unknown")) ∧
      (transfer_specialist true department raw).isOk = true) := by
  refine ⟨⟨?_, ?_⟩, ⟨?_, ?_⟩, ⟨?_, ?_⟩, ⟨?_, ?_⟩⟩
  · intro r hr
    cases lookup <;> simp [get_order_status, _log_function_call, mkRecord, h] at hr <;>
      subst hr <;> rfl
  · cases lookup <;> simp [get_order_status, _log_function_call, HandlerOutcome.isOk]
  · intro r hr
    simp [create_ticket, _log_function_call, mkRecord, h] at hr
    rcases hr with hr | hr <;> subst hr <;> rfl
  · simp [create_ticket, _log_function_call, HandlerOutcome.isOk]
  · intro r hr
    simp [create_ticket, _log_function_call, mkRecord] at hr
    rcases hr with hr | hr <;> subst hr <;> rfl
  · simp [create_ticket, _log_function_call, HandlerOutcome.isOk]
  · intro r hr
    simp [transfer_specialist, mkRecord, h] at hr
    subst hr
    rfl
  · rfl

/-- C10 witness: with the empty call context, transfer_specialist still
completes without fault. -/
theorem c10_call_id_fallback_witness :
    (transfer_specialist true "billing" []).isOk = true :=
  (c10_call_id_fallback [] rfl "A1" (Except.ok "shipped") 200 "broken widget"
    none ⟨2026, 10, 12, 11, 30, 0⟩ "billing").2.2.2.2

/-- C1 counterexample: `create_ticket` has no try/except around its body, so
a fault raised by its business logic propagates to the dispatcher as an
unhandled fault (`Except.error`), with no ERROR log record, no error metric
increment, and no textual fallback response — contradicting the claim that
every registered handler catches faults at the instrumentation boundary. -/
theorem c1_counterexample :
    (create_ticket true "broken widget" none (some []) ⟨2026, 10, 12, 11, 30, 0⟩ 0
        (Except.error "boom")).result = Except.error "boom" ∧
      (create_ticket true "broken widget" none (some []) ⟨2026, 10, 12, 11, 30, 0⟩ 0
        (Except.error "boom")).logs = [] ∧
      (create_ticket true "broken widget" none (some []) ⟨2026, 10, 12, 11, 30, 0⟩ 0
        (Except.error "boom")).metrics = [] :=
  ⟨rfl, rfl, rfl⟩

/-- C1 (amended): only `get_order_status` catches business-logic faults at
its boundary — any fault is logged as a single ERROR record with error_type,
counted in the error-labelled `function_calls_total` and in `errors_total`,
and converted to the fixed fallback response; `create_ticket`, having no
try/except, propagates any fault in its body unhandled to the dispatcher. -/
theorem c1_fault_containment :
    (∀ (order_id : String) (raw : List (String × String)) (e : String) (d : ℚ),
      (get_order_status true order_id raw (Except.error e) d).result
          = Except.ok (SwaigFunctionResult.new fallback_order_message false) ∧
        (get_order_status true order_id raw (Except.error e) d).logs.length = 1 ∧
        (∀ r ∈ (get_order_status true order_id raw (Except.error e) d).logs,
          r.levelname = "ERROR" ∧ r.context.lookup "error_type" = some (JVal.str e)) ∧
        countIncOf (get_order_status true order_id raw (Except.error e) d).metrics
          "voice_agent_function_calls_total" [("status", "error")] = 1 ∧
        countIncOf (get_order_status true order_id raw (Except.error e) d).metrics
          "voice_agent_errors_total" [("function", "get_order_status")] = 1) ∧
    (∀ (issue : String) (priority : Option String)
        (raw : Option (List (String × String))) (now : Datetime) (d : ℚ) (e : String),
      (create_ticket true issue priority raw now d (Except.error e)).result
        = Except.error e) := by
  constructor
  · intro order_id raw e d
    refine ⟨rfl, rfl, ?_, rfl, rfl⟩
    intro r hr
    simp [get_order_status, _log_function_call, mkRecord] at hr
    subst hr
    exact ⟨rfl, rfl⟩
  · intro issue priority raw now d e
    rfl

/-- C2 counterexample: `transfer_specialist` returns normally yet emits zero
INFO records carrying call_id, function_name and duration_ms, zero
`function_calls_total` increments and zero latency observations —
contradicting the claim that every registered tool produces exactly one of
each on normal return. -/
theorem c2_counterexample :
    (transfer_specialist true "billing" []).result
        = Except.ok ((SwaigFunctionResult.new "Transferring to billing." true).swml_transfer
            "/agents/billing" "Goodbye!" true) ∧
      instrInfoCount (transfer_specialist true "billing" []).logs = 0 ∧
      countIncOf (transfer_specialist true "billing" []).metrics
        "voice_agent_function_calls_total" [] = 0 ∧
      observedValues (transfer_specialist true "billing" []).metrics
        "voice_agent_function_latency_seconds" = [] :=
  ⟨rfl, rfl, rfl, rfl⟩

/-- C2 (amended): on normal return, `get_order_status` and `create_ticket`
each emit exactly one INFO record carrying call_id, function_name and
duration_ms, exactly one success-labelled `function_calls_total` increment
and exactly one latency observation; `transfer_specialist` and
`system_status` emit no such record and no `function_calls_total`
increment at all. -/
theorem c2_success_instrumentation :
    (∀ (order_id status : String) (raw : List (String × String)) (d : ℚ),
      instrInfoCount (get_order_status true order_id raw (Except.ok status) d).logs = 1 ∧
      countIncOf (get_order_status true order_id raw (Except.ok status) d).metrics
        "voice_agent_function_calls_total" [("status", "success")] = 1 ∧
      (observedValues (get_order_status true order_id raw (Except.ok status) d).metrics
        "voice_agent_function_latency_seconds").length = 1) ∧
    (∀ (issue : String) (priority : Option String)
        (raw : Option (List (String × String))) (now : Datetime) (d : ℚ),
      instrInfoCount (create_ticket true issue priority raw now d (Except.ok ())).logs = 1 ∧
      countIncOf (create_ticket true issue priority raw now d (Except.ok ())).metrics
        "voice_agent_function_calls_total" [("status", "success")] = 1 ∧
      (observedValues (create_ticket true issue priority raw now d (Except.ok ())).metrics
        "voice_agent_function_latency_seconds").length = 1) ∧
    (∀ (department : String) (raw : List (String × String)),
      instrInfoCount (transfer_specialist true department raw).logs = 0 ∧
      countIncOf (transfer_specialist true department raw).metrics
        "voice_agent_function_calls_total" [] = 0) ∧
    instrInfoCount system_status.logs = 0 ∧
    countIncOf system_status.metrics "voice_agent_function_calls_total" [] = 0 :=
  ⟨fun _ _ _ _ => ⟨rfl, rfl, rfl⟩, fun _ _ _ _ _ => ⟨rfl, rfl, rfl⟩,
   fun _ _ => ⟨rfl, rfl⟩, rfl, rfl⟩

/-- C4 counterexample: a record whose allow-listed context value is
non-serializable makes `JSONFormatter.format` raise the serialization fault
to its caller (there is no try/except around `json.dumps` in the source), so
no degraded record with a serialization-error marker is produced —
contradicting the claim. -/
theorem c4_counterexample :
    JSONFormatter.format "2026-10-12T00:00:00"
        ⟨"INFO", "agent", "msg", "solution", "tool",
         [("call_id", JVal.nonSerializable)], none⟩
      = Except.error () :=
  rfl

/-- C4 (amended): when any allow-listed context value is non-serializable,
`JSONFormatter.format` propagates the serialization fault to its caller and
produces no record at all; when no allow-listed context value is
non-serializable, serialization succeeds. -/
theorem c4_format_serialization (now : String) (r : LogRecord) :
    ((∃ k ∈ extra_fields, r.context.lookup k = some JVal.nonSerializable) →
      JSONFormatter.format now r = Except.error ()) ∧
    ((∀ k ∈ extra_fields, r.context.lookup k ≠ some JVal.nonSerializable) →
      ∃ out, JSONFormatter.format now r = Except.ok out) := by
  constructor
  · rintro ⟨k, hk, hlk⟩
    unfold JSONFormatter.format
    apply jsonDumps_eq_error
    refine ⟨(k, JVal.nonSerializable), ?_, rfl⟩
    unfold format_log_data
    refine List.mem_append_left _ (List.mem_append_right _ ?_)
    exact List.mem_filterMap.mpr ⟨k, hk, by rw [hlk]; rfl⟩
  · intro hall
    refine ⟨format_log_data now r, ?_⟩
    unfold JSONFormatter.format
    apply jsonDumps_eq_ok
    rintro ⟨k, v⟩ hmem
    unfold format_log_data at hmem
    rcases List.mem_append.mp hmem with hm | hm
    · rcases List.mem_append.mp hm with hb | he
      · simp only [base_data, List.mem_cons, List.not_mem_nil, or_false,
          Prod.mk.injEq] at hb
        rcases hb with ⟨-, hv⟩ | ⟨-, hv⟩ | ⟨-, hv⟩ | ⟨-, hv⟩ | ⟨-, hv⟩ | ⟨-, hv⟩ <;>
          subst hv <;> rfl
      · rcases List.mem_filterMap.mp he with ⟨k2, hk2, hmap⟩
        cases h2 : r.context.lookup k2 with
        | none => rw [h2] at hmap; cases hmap
        | some v2 =>
          rw [h2] at hmap
          obtain ⟨hkeq, hveq⟩ := Prod.mk.injEq .. ▸ Option.some.inj hmap
          subst hkeq
          subst hveq
          apply serializable_of_ne
          intro hbad
          exact hall _ hk2 (hbad ▸ h2)
    · cases hx : r.exc_info with
      | none => rw [hx] at hm; cases hm
      | some tb =>
        rw [hx] at hm
        simp only [List.mem_cons, List.not_mem_nil, or_false, Prod.mk.injEq] at hm
        obtain ⟨-, hv⟩ := hm
        subst hv
        rfl

/-- C4 witness: the amended theorem at a concrete record with a
non-serializable call_id value. -/
theorem c4_format_serialization_witness :
    JSONFormatter.format "2026-10-12T00:00:01"
        ⟨"INFO", "agent", "m", "solution", "f",
         [("customer_id", JVal.nonSerializable)], none⟩
      = Except.error () :=
  (c4_format_serialization "2026-10-12T00:00:01"
      ⟨"INFO", "agent", "m", "solution", "f",
       [("customer_id", JVal.nonSerializable)], none⟩).1
    ⟨"customer_id", by decide, rfl⟩

/-- C5 counterexample: a record carrying exception info serializes to an
object containing the key "exception", which is neither a base field nor on
the allow-list — contradicting the claim that beyond the base fields only
allow-listed contextual keys appear. -/
theorem c5_counterexample :
    JSONFormatter.format "2026-10-12T00:00:00"
        ⟨"ERROR", "agent", "boom", "solution", "tool", [], some "TracebackText"⟩
      = Except.ok [("timestamp", JVal.str "2026-10-12T00:00:00"),
          ("level", JVal.str "ERROR"), ("logger", JVal.str "agent"),
          ("message", JVal.str "boom"), ("module", JVal.str "solution"),
          ("function", JVal.str "tool"), ("exception", JVal.str "TracebackText")] ∧
      "exception" ∉ base_fields ∧ "exception" ∉ extra_fields :=
  ⟨rfl, by decide, by decide⟩

/-- C5 (amended): every pair of the serialized output is either one of the
six base fields, an allow-listed contextual key with the value looked up on
the record, or the "exception" field present exactly when the record carries
exception info; any caller-supplied extra field outside the allow-list is
silently dropped. -/
theorem c5_allowlist (now : String) (r : LogRecord) (out : List (String × JVal))
    (h : JSONFormatter.format now r = Except.ok out) :
    (base_data now r).map Prod.fst = base_fields ∧
    ∀ p ∈ out, p ∈ base_data now r ∨
      (p.1 ∈ extra_fields ∧ r.context.lookup p.1 = some p.2) ∨
      (p.1 = "exception" ∧ ∃ tb, r.exc_info = some tb ∧ p.2 = JVal.str tb) := by
  refine ⟨rfl, ?_⟩
  have hout : out = format_log_data now r := jsonDumps_ok_inv _ _ h
  subst hout
  rintro ⟨k, v⟩ hmem
  unfold format_log_data at hmem
  rcases List.mem_append.mp hmem with hm | hm
  · rcases List.mem_append.mp hm with hb | he
    · exact Or.inl hb
    · rcases List.mem_filterMap.mp he with ⟨k2, hk2, hmap⟩
      cases h2 : r.context.lookup k2 with
      | none => rw [h2] at hmap; cases hmap
      | some v2 =>
        rw [h2] at hmap
        obtain ⟨hkeq, hveq⟩ := Prod.mk.injEq .. ▸ Option.some.inj hmap
        subst hkeq
        subst hveq
        exact Or.inr (Or.inl ⟨hk2, h2⟩)
  · cases hx : r.exc_info with
    | none => rw [hx] at hm; cases hm
    | some tb =>
      rw [hx] at hm
      simp only [List.mem_cons, List.not_mem_nil, or_false, Prod.mk.injEq] at hm
      obtain ⟨hk, hv⟩ := hm
      exact Or.inr (Or.inr ⟨hk, tb, rfl, hv⟩)

/-- C5 witness: the amended theorem applied at a concrete record carrying an
allow-listed field; the serialized output is the base fields plus that
field. -/
theorem c5_allowlist_witness :
    ((base_data "2026-10-12T00:00:02"
        ⟨"INFO", "agent", "m", "solution", "f",
         [("call_id", JVal.str "abc")], none⟩).map Prod.fst = base_fields) :=
  (c5_allowlist "2026-10-12T00:00:02"
      ⟨"INFO", "agent", "m", "solution", "f", [("call_id", JVal.str "abc")], none⟩
      (format_log_data "2026-10-12T00:00:02"
        ⟨"INFO", "agent", "m", "solution", "f", [("call_id", JVal.str "abc")], none⟩)
      rfl).1

end Solution
